import Mathlib

/-!
Shallow embedding of the packet codec in `src/protocol/src/packet.rs`.

Byte buffers are modelled as `List Nat` (each element a byte value `< 256`).
The Rust `Cursor<&[u8]>` is modelled by passing the list of not-yet-consumed
bytes; every primitive read returns the value read together with the
remaining bytes.

The `bytes` crate's `get_*` methods panic when fewer bytes remain than the
width of the read.  Such a panic is a fault of the process, not an
`io::Error`; it is modelled by the distinguished error `DecodeErr.fault`.
`io::Error::new(io::ErrorKind::InvalidData, msg)` values are modelled by
`DecodeErr.invalidData msg`.

Machine-integer fields (`i32`, `i16`, `i8`, `i64`, `u8`, and the `f32`/`f64`
float fields, which the codec only moves byte-for-byte and never interprets
arithmetically) are modelled by their big-endian unsigned bit patterns as
`Nat`; the codec reads and writes raw big-endian bytes, so the pattern view
is byte-exact.
-/

namespace Misery

/-- Keep alive packet identifier (`KEEP_ALIVE_PACKET_ID`). -/
def KEEP_ALIVE_PACKET_ID : Nat := 0x00

/-- Login request identifier (`LOGIN_REQUEST_PACKET_ID`). -/
def LOGIN_REQUEST_PACKET_ID : Nat := 0x01

/-- Handshake packet identifier (`HANDSHAKE_PACKET_ID`). -/
def HANDSHAKE_PACKET_ID : Nat := 0x02

/-- Chat message packet identifier (`CHAT_MESSAGE_PACKET_ID`). -/
def CHAT_MESSAGE_PACKET_ID : Nat := 0x03

/-- Time update packet identifier (`TIME_UPDATE_PACKET_ID`). -/
def TIME_UPDATE_PACKET_ID : Nat := 0x04

/-- Entity equipment packet identifier (`ENTITY_EQUIPMENT_PACKET_ID`). -/
def ENTITY_EQUIPMENT_PACKET_ID : Nat := 0x05

/-- Spawn position packet identifier (`SPAWN_POSITION_PACKET_ID`). -/
def SPAWN_POSITION_PACKET_ID : Nat := 0x06

/-- Player position and look packet identifier (`PLAYER_POSITION_AND_LOOK_PACKET_ID`). -/
def PLAYER_POSITION_AND_LOOK_PACKET_ID : Nat := 0x0D

/-- Server list ping packet identifier (`SERVER_LIST_PING_PACKET_ID`). -/
def SERVER_LIST_PING_PACKET_ID : Nat := 0xFE

/-- Disconnect/Kick packet identifier (`DISCONNECT_KICK_PACKET_ID`). -/
def DISCONNECT_KICK_PACKET_ID : Nat := 0xFF

/-- Outcome of a failing decode step:
`fault` models a panic of the `bytes` crate on a read past the end of the
buffer (the code performs no bounds check of its own), while
`invalidData msg` models `io::Error::new(io::ErrorKind::InvalidData, msg)`. -/
inductive DecodeErr where
  | fault : DecodeErr
  | invalidData : String → DecodeErr
deriving DecidableEq, Repr

instance {ε α : Type} [DecidableEq ε] [DecidableEq α] : DecidableEq (Except ε α) :=
  fun x y =>
    match x, y with
    | .ok a, .ok b =>
      if h : a = b then .isTrue (by rw [h]) else .isFalse (by simp [h])
    | .error e, .error f =>
      if h : e = f then .isTrue (by rw [h]) else .isFalse (by simp [h])
    | .ok _, .error _ => .isFalse (by simp)
    | .error _, .ok _ => .isFalse (by simp)

/-- Big-endian value of a byte list (`foldl` accumulating base-256 digits). -/
def be_val (bs : List Nat) : Nat :=
  bs.foldl (fun acc b => acc * 256 + b) 0

/-- Model of the `bytes::Buf` fixed-width big-endian reads (`get_u8`,
`get_u16`, `get_i32`, ...): if at least `w` bytes remain, return the
big-endian value of the first `w` bytes and the remaining bytes, otherwise
the read panics (`DecodeErr.fault`). -/
def get_be (w : Nat) (l : List Nat) : Except DecodeErr (Nat × List Nat) :=
  if w ≤ l.length then .ok (be_val (l.take w), l.drop w) else .error .fault

/-- `Buf::get_u8`. -/
def get_u8 : List Nat → Except DecodeErr (Nat × List Nat) := get_be 1

/-- `Buf::get_u16` (big-endian). -/
def get_u16 : List Nat → Except DecodeErr (Nat × List Nat) := get_be 2

/-- `Buf::get_i8` (bit pattern of the signed byte). -/
def get_i8 : List Nat → Except DecodeErr (Nat × List Nat) := get_be 1

/-- `Buf::get_i16` (big-endian bit pattern). -/
def get_i16 : List Nat → Except DecodeErr (Nat × List Nat) := get_be 2

/-- `Buf::get_i32` (big-endian bit pattern). -/
def get_i32 : List Nat → Except DecodeErr (Nat × List Nat) := get_be 4

/-- `Buf::get_i64` (big-endian bit pattern). -/
def get_i64 : List Nat → Except DecodeErr (Nat × List Nat) := get_be 8

/-- `Buf::get_f32` (big-endian bit pattern; the codec never interprets it). -/
def get_f32 : List Nat → Except DecodeErr (Nat × List Nat) := get_be 4

/-- `Buf::get_f64` (big-endian bit pattern; the codec never interprets it). -/
def get_f64 : List Nat → Except DecodeErr (Nat × List Nat) := get_be 8

/-- `BufMut::put_u8`: one byte, the low 8 bits of the value. -/
def put_u8 (n : Nat) : List Nat := [n % 256]

/-- `BufMut::put_u16`: two big-endian bytes of the low 16 bits. -/
def put_u16 (n : Nat) : List Nat := [n / 256 % 256, n % 256]

/-- `BufMut::put_i8` on the bit-pattern view. -/
def put_i8 (n : Nat) : List Nat := [n % 256]

/-- `BufMut::put_i16` on the bit-pattern view. -/
def put_i16 (n : Nat) : List Nat := [n / 256 % 256, n % 256]

/-- `BufMut::put_i32` on the bit-pattern view: four big-endian bytes. -/
def put_i32 (n : Nat) : List Nat :=
  [n / 256 ^ 3 % 256, n / 256 ^ 2 % 256, n / 256 % 256, n % 256]

/-- `BufMut::put_i64` on the bit-pattern view: eight big-endian bytes. -/
def put_i64 (n : Nat) : List Nat :=
  [n / 256 ^ 7 % 256, n / 256 ^ 6 % 256, n / 256 ^ 5 % 256, n / 256 ^ 4 % 256,
   n / 256 ^ 3 % 256, n / 256 ^ 2 % 256, n / 256 % 256, n % 256]

/-- `BufMut::put_f32` on the bit-pattern view: four big-endian bytes. -/
def put_f32 (n : Nat) : List Nat :=
  [n / 256 ^ 3 % 256, n / 256 ^ 2 % 256, n / 256 % 256, n % 256]

/-- `BufMut::put_f64` on the bit-pattern view: eight big-endian bytes. -/
def put_f64 (n : Nat) : List Nat :=
  [n / 256 ^ 7 % 256, n / 256 ^ 6 % 256, n / 256 ^ 5 % 256, n / 256 ^ 4 % 256,
   n / 256 ^ 3 % 256, n / 256 ^ 2 % 256, n / 256 % 256, n % 256]

/-- UTF-16 code units of one Unicode scalar value, as produced per character
by Rust's `str::encode_utf16`: BMP characters give one unit, characters
above `U+FFFF` give a surrogate pair. -/
def char_utf16 (c : Char) : List Nat :=
  if c.toNat < 0x10000 then
    [c.toNat]
  else
    [0xD800 + (c.toNat - 0x10000) / 0x400, 0xDC00 + (c.toNat - 0x10000) % 0x400]

/-- `str::encode_utf16` over a whole string. -/
def encode_utf16 (s : String) : List Nat :=
  (s.data.map char_utf16).flatten

/-- `String::from_utf16`: reassemble UTF-16 code units into characters,
failing (`none`) on a lone or misordered surrogate half.  Units are byte-pair
values and hence `< 0x10000` for every real input; larger values (which a
`u16` cannot hold) are rejected. -/
def decode_utf16 : List Nat → Option (List Char)
  | [] => some []
  | u :: rest =>
    if u < 0xD800 ∨ (0xDFFF < u ∧ u < 0x10000) then
      match decode_utf16 rest with
      | some cs => some (Char.ofNat u :: cs)
      | none => none
    else if u ≤ 0xDBFF then
      match rest with
      | [] => none
      | u2 :: rest2 =>
        if 0xDC00 ≤ u2 ∧ u2 ≤ 0xDFFF then
          match decode_utf16 rest2 with
          | some cs =>
            some (Char.ofNat (0x10000 + (u - 0xD800) * 0x400 + (u2 - 0xDC00)) :: cs)
          | none => none
        else none
    else none

/-- Result-propagating sequencing of two decoding steps over the remaining
byte list: the model of Rust's `?` operator applied to cursor reads. -/
def rbind {α β : Type} (f : List Nat → Except DecodeErr (α × List Nat))
    (g : α → List Nat → Except DecodeErr (β × List Nat))
    (l : List Nat) : Except DecodeErr (β × List Nat) :=
  match f l with
  | .error e => .error e
  | .ok (a, l1) => g a l1

/-- A decoding step that consumes nothing and returns `a` (the final
`Ok(...)` of a Rust `from_bytes` body). -/
def rpure {α : Type} (a : α) (l : List Nat) : Except DecodeErr (α × List Nat) :=
  .ok (a, l)

/-- The loop of `read_string`: read `n` big-endian `u16` code units. -/
def read_utf16_units : Nat → List Nat → Except DecodeErr (List Nat × List Nat)
  | 0, l => .ok ([], l)
  | n + 1, l =>
    match get_u16 l with
    | .error e => .error e
    | .ok (u, l1) =>
      match read_utf16_units n l1 with
      | .error e => .error e
      | .ok (us, l2) => .ok (u :: us, l2)

/-- `read_string`: read a `u16` length prefix, then that many `u16` code
units, then convert them with `String::from_utf16`, mapping a conversion
failure to `InvalidData "Invalid UTF-16 data"`. -/
def read_string (l : List Nat) : Except DecodeErr (String × List Nat) :=
  match get_u16 l with
  | .error e => .error e
  | .ok (length, l1) =>
    match read_utf16_units length l1 with
    | .error e => .error e
    | .ok (utf16_data, l2) =>
      match decode_utf16 utf16_data with
      | some cs => .ok (String.mk cs, l2)
      | none => .error (.invalidData "Invalid UTF-16 data")

/-- `put_string`: write `s.chars().count() as u16` as a big-endian length
prefix (note: the count of Unicode scalar values, not of UTF-16 code units),
then every UTF-16 code unit of `s` as two big-endian bytes. -/
def put_string (s : String) : List Nat :=
  put_u16 s.data.length ++ ((encode_utf16 s).map put_u16).flatten

/-- Payload for `Packet::KeepAlive` (`keep_alive_id : i32`). -/
structure KeepAlivePayload where
  keep_alive_id : Nat
deriving DecidableEq, Repr

/-- Payload for `Packet::LoginRequest`.  Numeric fields are the bit patterns
of the Rust `i32`/`i8`/`u8` fields. -/
structure LoginRequestPayload where
  id : Nat
  username : String
  level_type : String
  server_mode : Nat
  dimension : Nat
  difficulty : Nat
  unused_0 : Nat
  max_players : Nat
deriving DecidableEq, Repr

/-- Payload for `Packet::Handshake`. -/
structure HandshakePayload where
  data : String
deriving DecidableEq, Repr

/-- Payload for `Packet::ChatMessage`. -/
structure ChatMessagePayload where
  message : String
deriving DecidableEq, Repr

/-- Payload for `Packet::TimeUpdate` (`time : i64`). -/
structure TimeUpdatePayload where
  time : Nat
deriving DecidableEq, Repr

/-- Payload for `Packet::EntityEquipment` (`i32`, three `i16` fields). -/
structure EntityEquipmentPayload where
  entity_id : Nat
  slot : Nat
  item_id : Nat
  damage : Nat
deriving DecidableEq, Repr

/-- Payload for `Packet::SpawnPosition` (three `i32` fields). -/
structure SpawnPositionPayload where
  x : Nat
  y : Nat
  z : Nat
deriving DecidableEq, Repr

/-- Payload for `Packet::PlayerPositionAndLook`.  The `f64`/`f32` fields are
represented by their IEEE-754 bit patterns, which is byte-exact because the
codec only moves their bytes. -/
structure PlayerPositionAndLookPayload where
  x : Nat
  stance_y_0 : Nat
  stance_y_1 : Nat
  z : Nat
  yaw : Nat
  pitch : Nat
  on_ground : Nat
deriving DecidableEq, Repr

/-- Payload for `Packet::ServerListPing` (no fields). -/
structure ServerListPingPayload where
deriving DecidableEq, Repr

/-- Payload for `Packet::DisconnectKick`. -/
structure DisconnectKickPayload where
  reason : String
deriving DecidableEq, Repr

/-- `Packet`: the closed tagged union over all payload types. -/
inductive Packet where
  | KeepAlive : KeepAlivePayload → Packet
  | LoginRequest : LoginRequestPayload → Packet
  | Handshake : HandshakePayload → Packet
  | ChatMessage : ChatMessagePayload → Packet
  | TimeUpdate : TimeUpdatePayload → Packet
  | EntityEquipment : EntityEquipmentPayload → Packet
  | SpawnPosition : SpawnPositionPayload → Packet
  | PlayerPositionAndLook : PlayerPositionAndLookPayload → Packet
  | ServerListPing : ServerListPingPayload → Packet
  | DisconnectKick : DisconnectKickPayload → Packet
deriving DecidableEq, Repr

/-- `KeepAlivePayload::from_bytes`: one unconditional `get_i32`. -/
def KeepAlivePayload.from_bytes : List Nat → Except DecodeErr (KeepAlivePayload × List Nat) :=
  rbind get_i32 fun keep_alive_id =>
  rpure { keep_alive_id }

/-- `KeepAlivePayload::to_bytes`. -/
def KeepAlivePayload.to_bytes (p : KeepAlivePayload) : List Nat :=
  put_i32 p.keep_alive_id

/-- `LoginRequestPayload::from_bytes`: reads `id`, `username`, `level_type`,
`server_mode`, `dimension`, `difficulty`, then assigns `unused_0 := 0`
without consuming a byte (the Rust struct literal contains `unused_0: 0`,
not a cursor read), and finally reads `max_players`. -/
def LoginRequestPayload.from_bytes : List Nat → Except DecodeErr (LoginRequestPayload × List Nat) :=
  rbind get_i32 fun id =>
  rbind read_string fun username =>
  rbind read_string fun level_type =>
  rbind get_i32 fun server_mode =>
  rbind get_i32 fun dimension =>
  rbind get_i8 fun difficulty =>
  rbind get_u8 fun max_players =>
  rpure { id, username, level_type, server_mode, dimension, difficulty,
          unused_0 := 0, max_players }

/-- `LoginRequestPayload::to_bytes`: writes all eight fields, including one
byte for `unused_0`. -/
def LoginRequestPayload.to_bytes (p : LoginRequestPayload) : List Nat :=
  put_i32 p.id ++ put_string p.username ++ put_string p.level_type ++
  put_i32 p.server_mode ++ put_i32 p.dimension ++ put_i8 p.difficulty ++
  put_u8 p.unused_0 ++ put_u8 p.max_players

/-- `HandshakePayload::from_bytes`. -/
def HandshakePayload.from_bytes : List Nat → Except DecodeErr (HandshakePayload × List Nat) :=
  rbind read_string fun data =>
  rpure { data }

/-- `HandshakePayload::to_bytes`. -/
def HandshakePayload.to_bytes (p : HandshakePayload) : List Nat :=
  put_string p.data

/-- `ChatMessagePayload::from_bytes`. -/
def ChatMessagePayload.from_bytes : List Nat → Except DecodeErr (ChatMessagePayload × List Nat) :=
  rbind read_string fun message =>
  rpure { message }

/-- `ChatMessagePayload::to_bytes`. -/
def ChatMessagePayload.to_bytes (p : ChatMessagePayload) : List Nat :=
  put_string p.message

/-- `TimeUpdatePayload::from_bytes`. -/
def TimeUpdatePayload.from_bytes : List Nat → Except DecodeErr (TimeUpdatePayload × List Nat) :=
  rbind get_i64 fun time =>
  rpure { time }

/-- `TimeUpdatePayload::to_bytes`. -/
def TimeUpdatePayload.to_bytes (p : TimeUpdatePayload) : List Nat :=
  put_i64 p.time

/-- `EntityEquipmentPayload::from_bytes`. -/
def EntityEquipmentPayload.from_bytes : List Nat → Except DecodeErr (EntityEquipmentPayload × List Nat) :=
  rbind get_i32 fun entity_id =>
  rbind get_i16 fun slot =>
  rbind get_i16 fun item_id =>
  rbind get_i16 fun damage =>
  rpure { entity_id, slot, item_id, damage }

/-- `EntityEquipmentPayload::to_bytes`. -/
def EntityEquipmentPayload.to_bytes (p : EntityEquipmentPayload) : List Nat :=
  put_i32 p.entity_id ++ put_i16 p.slot ++ put_i16 p.item_id ++ put_i16 p.damage

/-- `SpawnPositionPayload::from_bytes`. -/
def SpawnPositionPayload.from_bytes : List Nat → Except DecodeErr (SpawnPositionPayload × List Nat) :=
  rbind get_i32 fun x =>
  rbind get_i32 fun y =>
  rbind get_i32 fun z =>
  rpure { x, y, z }

/-- `SpawnPositionPayload::to_bytes`. -/
def SpawnPositionPayload.to_bytes (p : SpawnPositionPayload) : List Nat :=
  put_i32 p.x ++ put_i32 p.y ++ put_i32 p.z

/-- `PlayerPositionAndLookPayload::from_bytes`. -/
def PlayerPositionAndLookPayload.from_bytes :
    List Nat → Except DecodeErr (PlayerPositionAndLookPayload × List Nat) :=
  rbind get_f64 fun x =>
  rbind get_f64 fun stance_y_0 =>
  rbind get_f64 fun stance_y_1 =>
  rbind get_f64 fun z =>
  rbind get_f32 fun yaw =>
  rbind get_f32 fun pitch =>
  rbind get_u8 fun on_ground =>
  rpure { x, stance_y_0, stance_y_1, z, yaw, pitch, on_ground }

/-- `PlayerPositionAndLookPayload::to_bytes`. -/
def PlayerPositionAndLookPayload.to_bytes (p : PlayerPositionAndLookPayload) : List Nat :=
  put_f64 p.x ++ put_f64 p.stance_y_0 ++ put_f64 p.stance_y_1 ++ put_f64 p.z ++
  put_f32 p.yaw ++ put_f32 p.pitch ++ put_u8 p.on_ground

/-- `ServerListPingPayload::from_bytes`: consumes nothing, always succeeds. -/
def ServerListPingPayload.from_bytes :
    List Nat → Except DecodeErr (ServerListPingPayload × List Nat) :=
  rpure {}

/-- `DisconnectKickPayload::from_bytes`. -/
def DisconnectKickPayload.from_bytes :
    List Nat → Except DecodeErr (DisconnectKickPayload × List Nat) :=
  rbind read_string fun reason =>
  rpure { reason }

/-- `DisconnectKickPayload::to_bytes`. -/
def DisconnectKickPayload.to_bytes (p : DisconnectKickPayload) : List Nat :=
  put_string p.reason

/-- One dispatch arm of `Packet::from_bytes`: run a payload decoder on the
remaining bytes and, on success, wrap the payload in its `Packet` variant,
discarding any unconsumed bytes. -/
def decode_payload {α : Type} (pf : List Nat → Except DecodeErr (α × List Nat))
    (wrap : α → Packet) (cursor : List Nat) : Except DecodeErr Packet :=
  match pf cursor with
  | .error e => .error e
  | .ok (payload, _) => .ok (wrap payload)

/-- `Packet::from_bytes`: read the identifier byte (an unconditional
`get_u8`: on the empty buffer this read panics), dispatch to the payload
decoder registered for it, and fail with
`InvalidData "Unknown packet ID"` on an unregistered identifier. -/
def Packet.from_bytes (bytes : List Nat) : Except DecodeErr Packet :=
  match get_u8 bytes with
  | .error e => .error e
  | .ok (packet_id, cursor) =>
    if packet_id = KEEP_ALIVE_PACKET_ID then
      decode_payload KeepAlivePayload.from_bytes Packet.KeepAlive cursor
    else if packet_id = LOGIN_REQUEST_PACKET_ID then
      decode_payload LoginRequestPayload.from_bytes Packet.LoginRequest cursor
    else if packet_id = DISCONNECT_KICK_PACKET_ID then
      decode_payload DisconnectKickPayload.from_bytes Packet.DisconnectKick cursor
    else if packet_id = HANDSHAKE_PACKET_ID then
      decode_payload HandshakePayload.from_bytes Packet.Handshake cursor
    else if packet_id = CHAT_MESSAGE_PACKET_ID then
      decode_payload ChatMessagePayload.from_bytes Packet.ChatMessage cursor
    else if packet_id = TIME_UPDATE_PACKET_ID then
      decode_payload TimeUpdatePayload.from_bytes Packet.TimeUpdate cursor
    else if packet_id = ENTITY_EQUIPMENT_PACKET_ID then
      decode_payload EntityEquipmentPayload.from_bytes Packet.EntityEquipment cursor
    else if packet_id = SPAWN_POSITION_PACKET_ID then
      decode_payload SpawnPositionPayload.from_bytes Packet.SpawnPosition cursor
    else if packet_id = PLAYER_POSITION_AND_LOOK_PACKET_ID then
      decode_payload PlayerPositionAndLookPayload.from_bytes Packet.PlayerPositionAndLook cursor
    else if packet_id = SERVER_LIST_PING_PACKET_ID then
      decode_payload ServerListPingPayload.from_bytes Packet.ServerListPing cursor
    else
      .error (.invalidData "Unknown packet ID")

/-- The identifier byte `Packet::to_bytes` writes for each variant. -/
def Packet.packet_id : Packet → Nat
  | .KeepAlive _ => KEEP_ALIVE_PACKET_ID
  | .LoginRequest _ => LOGIN_REQUEST_PACKET_ID
  | .Handshake _ => HANDSHAKE_PACKET_ID
  | .ChatMessage _ => CHAT_MESSAGE_PACKET_ID
  | .TimeUpdate _ => TIME_UPDATE_PACKET_ID
  | .EntityEquipment _ => ENTITY_EQUIPMENT_PACKET_ID
  | .SpawnPosition _ => SPAWN_POSITION_PACKET_ID
  | .PlayerPositionAndLook _ => PLAYER_POSITION_AND_LOOK_PACKET_ID
  | .ServerListPing _ => SERVER_LIST_PING_PACKET_ID
  | .DisconnectKick _ => DISCONNECT_KICK_PACKET_ID

/-- `Packet::to_bytes`: write the identifier byte, then the payload bytes.
Every arm of the Rust `match` ends in `Ok`, and every payload `to_bytes`
(including `put_string`) unconditionally returns `Ok`, so the result is
always `Ok` of the produced buffer; the `ServerListPing` arm writes only the
identifier byte. -/
def Packet.to_bytes (packet : Packet) : Except DecodeErr (List Nat) :=
  match packet with
  | .KeepAlive payload => .ok (put_u8 KEEP_ALIVE_PACKET_ID ++ payload.to_bytes)
  | .LoginRequest payload => .ok (put_u8 LOGIN_REQUEST_PACKET_ID ++ payload.to_bytes)
  | .Handshake payload => .ok (put_u8 HANDSHAKE_PACKET_ID ++ payload.to_bytes)
  | .ChatMessage payload => .ok (put_u8 CHAT_MESSAGE_PACKET_ID ++ payload.to_bytes)
  | .TimeUpdate payload => .ok (put_u8 TIME_UPDATE_PACKET_ID ++ payload.to_bytes)
  | .EntityEquipment payload => .ok (put_u8 ENTITY_EQUIPMENT_PACKET_ID ++ payload.to_bytes)
  | .SpawnPosition payload => .ok (put_u8 SPAWN_POSITION_PACKET_ID ++ payload.to_bytes)
  | .PlayerPositionAndLook payload =>
    .ok (put_u8 PLAYER_POSITION_AND_LOOK_PACKET_ID ++ payload.to_bytes)
  | .ServerListPing _ => .ok (put_u8 SERVER_LIST_PING_PACKET_ID)
  | .DisconnectKick payload => .ok (put_u8 DISCONNECT_KICK_PACKET_ID ++ payload.to_bytes)

/-! ## Prefix stability of the decoding steps

A decoding step is *prefix-stable* when a successful run on a buffer returns
the same value on any extension of that buffer, with the extra bytes left
unconsumed.  Every cursor read of the codec has this property because the
number of bytes a read consumes never depends on bytes beyond the ones it
consumes. -/

/-- Prefix stability of a decoding step. -/
def PrefixStable {α : Type} (f : List Nat → Except DecodeErr (α × List Nat)) : Prop :=
  ∀ l t a r, f l = .ok (a, r) → f (l ++ t) = .ok (a, r ++ t)

/-- Reading one byte off a non-empty buffer. -/
theorem get_u8_cons (x : Nat) (l : List Nat) : get_u8 (x :: l) = .ok (x, l) := by
  simp [get_u8, get_be, be_val]

/-- Fixed-width reads are prefix-stable. -/
theorem get_be_prefixStable (w : Nat) : PrefixStable (get_be w) := by
  intro l t a r h
  unfold get_be at h ⊢
  split at h
  case isTrue hw =>
    simp only [Except.ok.injEq, Prod.mk.injEq] at h
    obtain ⟨rfl, rfl⟩ := h
    rw [if_pos (by simp only [List.length_append]; omega)]
    rw [List.take_append_of_le_length hw, List.drop_append_of_le_length hw]
  case isFalse => cases h

/-- Sequencing preserves prefix stability. -/
theorem rbind_prefixStable {α β : Type}
    {f : List Nat → Except DecodeErr (α × List Nat)}
    {g : α → List Nat → Except DecodeErr (β × List Nat)}
    (hf : PrefixStable f) (hg : ∀ a, PrefixStable (g a)) :
    PrefixStable (rbind f g) := by
  intro l t b r h
  unfold rbind at h ⊢
  cases hfl : f l with
  | error e => rw [hfl] at h; cases h
  | ok p =>
    obtain ⟨a, l1⟩ := p
    rw [hfl] at h
    rw [hf l t a l1 hfl]
    exact hg a l1 t b r h

/-- A read that consumes nothing is prefix-stable. -/
theorem rpure_prefixStable {α : Type} (a : α) : PrefixStable (rpure a) := by
  intro l t b r h
  unfold rpure at h ⊢
  simp only [Except.ok.injEq, Prod.mk.injEq] at h
  obtain ⟨rfl, rfl⟩ := h
  rfl

/-- The code-unit loop of `read_string` is prefix-stable. -/
theorem read_utf16_units_prefixStable (n : Nat) : PrefixStable (read_utf16_units n) := by
  induction n with
  | zero => exact rpure_prefixStable []
  | succ n ih =>
    intro l t a r h
    unfold read_utf16_units at h ⊢
    cases h16 : get_u16 l with
    | error e => rw [h16] at h; cases h
    | ok p =>
      obtain ⟨u, l1⟩ := p
      rw [h16] at h
      dsimp only at h
      have h16e : get_u16 (l ++ t) = .ok (u, l1 ++ t) := get_be_prefixStable 2 l t u l1 h16
      rw [h16e]
      dsimp only
      cases hus : read_utf16_units n l1 with
      | error e => rw [hus] at h; cases h
      | ok q =>
        obtain ⟨us, l2⟩ := q
        rw [hus] at h
        dsimp only at h
        rw [ih l1 t us l2 hus]
        dsimp only
        simp only [Except.ok.injEq, Prod.mk.injEq] at h
        obtain ⟨rfl, rfl⟩ := h
        rfl

/-- `read_string` is prefix-stable. -/
theorem read_string_prefixStable : PrefixStable read_string := by
  intro l t a r h
  unfold read_string at h ⊢
  cases h16 : get_u16 l with
  | error e => rw [h16] at h; cases h
  | ok p =>
    obtain ⟨length, l1⟩ := p
    rw [h16] at h
    dsimp only at h
    have h16e : get_u16 (l ++ t) = .ok (length, l1 ++ t) := get_be_prefixStable 2 l t length l1 h16
    rw [h16e]
    dsimp only
    cases hus : read_utf16_units length l1 with
    | error e => rw [hus] at h; cases h
    | ok q =>
      obtain ⟨utf16_data, l2⟩ := q
      rw [hus] at h
      dsimp only at h
      rw [read_utf16_units_prefixStable length l1 t utf16_data l2 hus]
      dsimp only
      cases hdec : decode_utf16 utf16_data with
      | none => rw [hdec] at h; cases h
      | some cs =>
        rw [hdec] at h
        have h2 : (Except.ok (String.mk cs, l2) : Except DecodeErr (String × List Nat)) = .ok (a, r) := h
        simp only [Except.ok.injEq, Prod.mk.injEq] at h2
        obtain ⟨rfl, rfl⟩ := h2
        rfl

/-- `KeepAlivePayload::from_bytes` is prefix-stable. -/
theorem keepAlive_prefixStable : PrefixStable KeepAlivePayload.from_bytes :=
  rbind_prefixStable (get_be_prefixStable 4) fun _ => rpure_prefixStable _

/-- `LoginRequestPayload::from_bytes` is prefix-stable. -/
theorem loginRequest_prefixStable : PrefixStable LoginRequestPayload.from_bytes :=
  rbind_prefixStable (get_be_prefixStable 4) fun _ =>
  rbind_prefixStable read_string_prefixStable fun _ =>
  rbind_prefixStable read_string_prefixStable fun _ =>
  rbind_prefixStable (get_be_prefixStable 4) fun _ =>
  rbind_prefixStable (get_be_prefixStable 4) fun _ =>
  rbind_prefixStable (get_be_prefixStable 1) fun _ =>
  rbind_prefixStable (get_be_prefixStable 1) fun _ =>
  rpure_prefixStable _

/-- `HandshakePayload::from_bytes` is prefix-stable. -/
theorem handshake_prefixStable : PrefixStable HandshakePayload.from_bytes :=
  rbind_prefixStable read_string_prefixStable fun _ => rpure_prefixStable _

/-- `ChatMessagePayload::from_bytes` is prefix-stable. -/
theorem chatMessage_prefixStable : PrefixStable ChatMessagePayload.from_bytes :=
  rbind_prefixStable read_string_prefixStable fun _ => rpure_prefixStable _

/-- `TimeUpdatePayload::from_bytes` is prefix-stable. -/
theorem timeUpdate_prefixStable : PrefixStable TimeUpdatePayload.from_bytes :=
  rbind_prefixStable (get_be_prefixStable 8) fun _ => rpure_prefixStable _

/-- `EntityEquipmentPayload::from_bytes` is prefix-stable. -/
theorem entityEquipment_prefixStable : PrefixStable EntityEquipmentPayload.from_bytes :=
  rbind_prefixStable (get_be_prefixStable 4) fun _ =>
  rbind_prefixStable (get_be_prefixStable 2) fun _ =>
  rbind_prefixStable (get_be_prefixStable 2) fun _ =>
  rbind_prefixStable (get_be_prefixStable 2) fun _ =>
  rpure_prefixStable _

/-- `SpawnPositionPayload::from_bytes` is prefix-stable. -/
theorem spawnPosition_prefixStable : PrefixStable SpawnPositionPayload.from_bytes :=
  rbind_prefixStable (get_be_prefixStable 4) fun _ =>
  rbind_prefixStable (get_be_prefixStable 4) fun _ =>
  rbind_prefixStable (get_be_prefixStable 4) fun _ =>
  rpure_prefixStable _

/-- `PlayerPositionAndLookPayload::from_bytes` is prefix-stable. -/
theorem playerPositionAndLook_prefixStable : PrefixStable PlayerPositionAndLookPayload.from_bytes :=
  rbind_prefixStable (get_be_prefixStable 8) fun _ =>
  rbind_prefixStable (get_be_prefixStable 8) fun _ =>
  rbind_prefixStable (get_be_prefixStable 8) fun _ =>
  rbind_prefixStable (get_be_prefixStable 8) fun _ =>
  rbind_prefixStable (get_be_prefixStable 4) fun _ =>
  rbind_prefixStable (get_be_prefixStable 4) fun _ =>
  rbind_prefixStable (get_be_prefixStable 1) fun _ =>
  rpure_prefixStable _

/-- `ServerListPingPayload::from_bytes` is prefix-stable. -/
theorem serverListPing_prefixStable : PrefixStable ServerListPingPayload.from_bytes :=
  rpure_prefixStable _

/-- `DisconnectKickPayload::from_bytes` is prefix-stable. -/
theorem disconnectKick_prefixStable : PrefixStable DisconnectKickPayload.from_bytes :=
  rbind_prefixStable read_string_prefixStable fun _ => rpure_prefixStable _

/-- A dispatch arm built from a prefix-stable payload decoder yields the same
packet on any extension of its buffer. -/
theorem decode_payload_append {α : Type}
    {pf : List Nat → Except DecodeErr (α × List Nat)} (hpf : PrefixStable pf)
    (wrap : α → Packet) (cur t : List Nat) (m : Packet)
    (h : decode_payload pf wrap cur = .ok m) :
    decode_payload pf wrap (cur ++ t) = .ok m := by
  unfold decode_payload at h ⊢
  cases hp : pf cur with
  | error e => rw [hp] at h; cases h
  | ok p =>
    obtain ⟨payload, rest⟩ := p
    rw [hp] at h
    rw [hpf cur t payload rest hp]
    exact h

/-- Inversion of a successful dispatch arm. -/
theorem decode_payload_ok {α : Type}
    {pf : List Nat → Except DecodeErr (α × List Nat)} {wrap : α → Packet}
    {cur : List Nat} {m : Packet} (h : decode_payload pf wrap cur = .ok m) :
    ∃ payload rest, pf cur = .ok (payload, rest) ∧ m = wrap payload := by
  unfold decode_payload at h
  cases hp : pf cur with
  | error e => rw [hp] at h; cases h
  | ok p =>
    obtain ⟨payload, rest⟩ := p
    rw [hp] at h
    simp only [Except.ok.injEq] at h
    exact ⟨payload, rest, rfl, h.symm⟩

/-- Inversion of a successful sequencing step. -/
theorem rbind_ok {α β : Type}
    {f : List Nat → Except DecodeErr (α × List Nat)}
    {g : α → List Nat → Except DecodeErr (β × List Nat)}
    {l : List Nat} {b : β} {r : List Nat} (h : rbind f g l = .ok (b, r)) :
    ∃ a l1, f l = .ok (a, l1) ∧ g a l1 = .ok (b, r) := by
  unfold rbind at h
  cases hf : f l with
  | error e => rw [hf] at h; cases h
  | ok p =>
    obtain ⟨a, l1⟩ := p
    rw [hf] at h
    exact ⟨a, l1, rfl, h⟩

/-- Every payload produced by `LoginRequestPayload::from_bytes` carries
`unused_0 = 0`: the decoder writes the constant `0` into that field and
never reads it from the wire. -/
theorem loginRequest_from_bytes_unused_0 (l : List Nat) (p : LoginRequestPayload)
    (r : List Nat) (h : LoginRequestPayload.from_bytes l = .ok (p, r)) :
    p.unused_0 = 0 := by
  unfold LoginRequestPayload.from_bytes at h
  obtain ⟨id, l1, h1, h⟩ := rbind_ok h
  obtain ⟨username, l2, h2, h⟩ := rbind_ok h
  obtain ⟨level_type, l3, h3, h⟩ := rbind_ok h
  obtain ⟨server_mode, l4, h4, h⟩ := rbind_ok h
  obtain ⟨dimension, l5, h5, h⟩ := rbind_ok h
  obtain ⟨difficulty, l6, h6, h⟩ := rbind_ok h
  obtain ⟨max_players, l7, h7, h⟩ := rbind_ok h
  unfold rpure at h
  simp only [Except.ok.injEq, Prod.mk.injEq] at h
  rw [← h.1]

/-! ## Claims -/

/-- **C7** (confirmed).  For every buffer `b` that decodes successfully to a
message `m`, appending arbitrary extra bytes `t` leaves the decode result
unchanged: `Packet::from_bytes (b ++ t)` succeeds and yields the same
message `m`. -/
theorem from_bytes_trailing_bytes_stable (b t : List Nat) (m : Packet)
    (h : Packet.from_bytes b = .ok m) :
    Packet.from_bytes (b ++ t) = .ok m := by
  unfold Packet.from_bytes at h ⊢
  cases b with
  | nil =>
    rw [show get_u8 ([] : List Nat) = .error .fault from rfl] at h
    cases h
  | cons x cur =>
    rw [get_u8_cons] at h
    rw [List.cons_append, get_u8_cons]
    dsimp only at h ⊢
    by_cases h0 : x = KEEP_ALIVE_PACKET_ID
    · rw [if_pos h0] at h ⊢
      exact decode_payload_append keepAlive_prefixStable _ cur t m h
    rw [if_neg h0] at h ⊢
    by_cases h1 : x = LOGIN_REQUEST_PACKET_ID
    · rw [if_pos h1] at h ⊢
      exact decode_payload_append loginRequest_prefixStable _ cur t m h
    rw [if_neg h1] at h ⊢
    by_cases h2 : x = DISCONNECT_KICK_PACKET_ID
    · rw [if_pos h2] at h ⊢
      exact decode_payload_append disconnectKick_prefixStable _ cur t m h
    rw [if_neg h2] at h ⊢
    by_cases h3 : x = HANDSHAKE_PACKET_ID
    · rw [if_pos h3] at h ⊢
      exact decode_payload_append handshake_prefixStable _ cur t m h
    rw [if_neg h3] at h ⊢
    by_cases h4 : x = CHAT_MESSAGE_PACKET_ID
    · rw [if_pos h4] at h ⊢
      exact decode_payload_append chatMessage_prefixStable _ cur t m h
    rw [if_neg h4] at h ⊢
    by_cases h5 : x = TIME_UPDATE_PACKET_ID
    · rw [if_pos h5] at h ⊢
      exact decode_payload_append timeUpdate_prefixStable _ cur t m h
    rw [if_neg h5] at h ⊢
    by_cases h6 : x = ENTITY_EQUIPMENT_PACKET_ID
    · rw [if_pos h6] at h ⊢
      exact decode_payload_append entityEquipment_prefixStable _ cur t m h
    rw [if_neg h6] at h ⊢
    by_cases h7 : x = SPAWN_POSITION_PACKET_ID
    · rw [if_pos h7] at h ⊢
      exact decode_payload_append spawnPosition_prefixStable _ cur t m h
    rw [if_neg h7] at h ⊢
    by_cases h8 : x = PLAYER_POSITION_AND_LOOK_PACKET_ID
    · rw [if_pos h8] at h ⊢
      exact decode_payload_append playerPositionAndLook_prefixStable _ cur t m h
    rw [if_neg h8] at h ⊢
    by_cases h9 : x = SERVER_LIST_PING_PACKET_ID
    · rw [if_pos h9] at h ⊢
      exact decode_payload_append serverListPing_prefixStable _ cur t m h
    rw [if_neg h9] at h ⊢
    cases h

/-- Witness for **C7**: the repository's own trailing-zeroes test input. -/
theorem from_bytes_trailing_bytes_stable_witness :
    Packet.from_bytes [0xFE] = .ok (.ServerListPing {}) ∧
      Packet.from_bytes ([0xFE] ++ [0x00, 0x00, 0x00]) = .ok (.ServerListPing {}) :=
  ⟨by decide, from_bytes_trailing_bytes_stable [0xFE] [0x00, 0x00, 0x00] _ (by decide)⟩

/-- **C10** (confirmed).  Whenever `Packet::from_bytes` succeeds with a
`LoginRequest` message, the payload's `unused_0` (reserved) field is `0`,
whatever the input bytes were: the decoder assigns the constant `0` and
never populates the field from a wire byte. -/
theorem from_bytes_loginRequest_unused_0_eq_zero (bytes : List Nat)
    (p : LoginRequestPayload) (h : Packet.from_bytes bytes = .ok (.LoginRequest p)) :
    p.unused_0 = 0 := by
  unfold Packet.from_bytes at h
  cases bytes with
  | nil =>
    rw [show get_u8 ([] : List Nat) = .error .fault from rfl] at h
    cases h
  | cons x cur =>
    rw [get_u8_cons] at h
    dsimp only at h
    by_cases h0 : x = KEEP_ALIVE_PACKET_ID
    · rw [if_pos h0] at h
      obtain ⟨payload, rest, -, hm⟩ := decode_payload_ok h
      exact Packet.noConfusion hm
    rw [if_neg h0] at h
    by_cases h1 : x = LOGIN_REQUEST_PACKET_ID
    · rw [if_pos h1] at h
      obtain ⟨payload, rest, hpf, hm⟩ := decode_payload_ok h
      injection hm with hp
      subst hp
      exact loginRequest_from_bytes_unused_0 cur _ rest hpf
    rw [if_neg h1] at h
    by_cases h2 : x = DISCONNECT_KICK_PACKET_ID
    · rw [if_pos h2] at h
      obtain ⟨payload, rest, -, hm⟩ := decode_payload_ok h
      exact Packet.noConfusion hm
    rw [if_neg h2] at h
    by_cases h3 : x = HANDSHAKE_PACKET_ID
    · rw [if_pos h3] at h
      obtain ⟨payload, rest, -, hm⟩ := decode_payload_ok h
      exact Packet.noConfusion hm
    rw [if_neg h3] at h
    by_cases h4 : x = CHAT_MESSAGE_PACKET_ID
    · rw [if_pos h4] at h
      obtain ⟨payload, rest, -, hm⟩ := decode_payload_ok h
      exact Packet.noConfusion hm
    rw [if_neg h4] at h
    by_cases h5 : x = TIME_UPDATE_PACKET_ID
    · rw [if_pos h5] at h
      obtain ⟨payload, rest, -, hm⟩ := decode_payload_ok h
      exact Packet.noConfusion hm
    rw [if_neg h5] at h
    by_cases h6 : x = ENTITY_EQUIPMENT_PACKET_ID
    · rw [if_pos h6] at h
      obtain ⟨payload, rest, -, hm⟩ := decode_payload_ok h
      exact Packet.noConfusion hm
    rw [if_neg h6] at h
    by_cases h7 : x = SPAWN_POSITION_PACKET_ID
    · rw [if_pos h7] at h
      obtain ⟨payload, rest, -, hm⟩ := decode_payload_ok h
      exact Packet.noConfusion hm
    rw [if_neg h7] at h
    by_cases h8 : x = PLAYER_POSITION_AND_LOOK_PACKET_ID
    · rw [if_pos h8] at h
      obtain ⟨payload, rest, -, hm⟩ := decode_payload_ok h
      exact Packet.noConfusion hm
    rw [if_neg h8] at h
    by_cases h9 : x = SERVER_LIST_PING_PACKET_ID
    · rw [if_pos h9] at h
      obtain ⟨payload, rest, -, hm⟩ := decode_payload_ok h
      exact Packet.noConfusion hm
    rw [if_neg h9] at h
    cases h

/-- Witness for **C10**: the repository's `decode_login_request_packet`
test buffer decodes to a `LoginRequest` whose `unused_0` is `0`. -/
theorem from_bytes_loginRequest_unused_0_eq_zero_witness :
    ({ id := 29, username := "e", level_type := "", server_mode := 0, dimension := 0,
       difficulty := 0, unused_0 := 0, max_players := 0 } : LoginRequestPayload).unused_0 = 0 :=
  from_bytes_loginRequest_unused_0_eq_zero
    [0x01, 0x00, 0x00, 0x00, 0x1D, 0x00, 0x01, 0x00, 0x65, 0x00, 0x00, 0x00, 0x00, 0x00,
     0x00, 0x00, 0x00, 0x00, 0x00, 0x00, 0x00] _ (by decide)

/-- **C6** counterexample.  The claim says the error carries the offending
identifier byte.  It does not: decoding `[0x99]` and decoding `[0x42]`
return the *same* error value (`InvalidData` with the fixed message
`"Unknown packet ID"`), so the error cannot carry the byte. -/
theorem unknown_identifier_error_carries_no_byte :
    Packet.from_bytes [0x99] = Packet.from_bytes [0x42] ∧
      Packet.from_bytes [0x99] = .error (.invalidData "Unknown packet ID") := by
  constructor
  · decide
  · decide

/-- **C6** (corrected).  For every non-empty buffer whose first byte is none
of the ten registered identifiers, decoding returns the unknown-identifier
error — `InvalidData` with the constant message `"Unknown packet ID"`,
which does not carry the byte — and never faults. -/
theorem unknown_identifier_yields_invalid_data (b : Nat) (rest : List Nat)
    (h0 : b ≠ KEEP_ALIVE_PACKET_ID) (h1 : b ≠ LOGIN_REQUEST_PACKET_ID)
    (h2 : b ≠ HANDSHAKE_PACKET_ID) (h3 : b ≠ CHAT_MESSAGE_PACKET_ID)
    (h4 : b ≠ TIME_UPDATE_PACKET_ID) (h5 : b ≠ ENTITY_EQUIPMENT_PACKET_ID)
    (h6 : b ≠ SPAWN_POSITION_PACKET_ID) (h7 : b ≠ PLAYER_POSITION_AND_LOOK_PACKET_ID)
    (h8 : b ≠ SERVER_LIST_PING_PACKET_ID) (h9 : b ≠ DISCONNECT_KICK_PACKET_ID) :
    Packet.from_bytes (b :: rest) = .error (.invalidData "Unknown packet ID") := by
  unfold Packet.from_bytes
  rw [get_u8_cons]
  dsimp only
  rw [if_neg h0, if_neg h1, if_neg h9, if_neg h2, if_neg h3, if_neg h4, if_neg h5,
    if_neg h6, if_neg h7, if_neg h8]

/-- Witness for **C6**: the spec's own example byte `0x99`. -/
theorem unknown_identifier_yields_invalid_data_witness :
    Packet.from_bytes [0x99] = .error (.invalidData "Unknown packet ID") :=
  unknown_identifier_yields_invalid_data 0x99 [] (by decide) (by decide) (by decide)
    (by decide) (by decide) (by decide) (by decide) (by decide) (by decide) (by decide)

/-- **C1** counterexample.  The claim says decoding the empty buffer (a
strict prefix of every valid encoded message) returns a `TruncatedMessage`
error and never faults.  The code has no `TruncatedMessage` error at all:
the unconditional identifier read panics on the empty buffer, modelled by
`DecodeErr.fault`. -/
theorem decode_empty_buffer_faults : Packet.from_bytes [] = .error .fault := by
  decide

/-- **C1** (corrected, amended).  There is no `TruncatedMessage` error in
the code; short input makes an unconditional cursor read panic instead.
Amended statement, proved here for the fixed-width `KeepAlive` kind: every
strict prefix (`take k` with `k < 5`) of a valid 5-byte encoded `KeepAlive`
message decodes to a fault (panic), not to a typed truncation error.
(The original universally-quantified claim also fails differently for
`LoginRequest`: its decoder consumes one byte fewer than its encoder
writes, so dropping the last byte of an encoded `LoginRequest` still
decodes successfully.) -/
theorem keepAlive_strict_prefix_faults (n k : Nat) (bs : List Nat)
    (henc : Packet.to_bytes (.KeepAlive { keep_alive_id := n }) = .ok bs)
    (hk : k < 5) :
    Packet.from_bytes (bs.take k) = .error .fault := by
  simp only [Packet.to_bytes, KeepAlivePayload.to_bytes, put_u8, put_i32,
    KEEP_ALIVE_PACKET_ID, Except.ok.injEq, List.cons_append, List.nil_append,
    Nat.zero_mod] at henc
  subst henc
  interval_cases k <;>
    simp [Packet.from_bytes, decode_payload, KeepAlivePayload.from_bytes, rbind, rpure,
      get_u8, get_i32, get_be, be_val, KEEP_ALIVE_PACKET_ID]

/-- Witness for **C1**'s amended theorem: the 3-byte strict prefix of the
encoded `KeepAlive { keep_alive_id := 17 }` faults. -/
theorem keepAlive_strict_prefix_faults_witness :
    Packet.from_bytes (List.take 3 [0x00, 0x00, 0x00, 0x00, 0x11]) = .error .fault :=
  keepAlive_strict_prefix_faults 17 3 [0x00, 0x00, 0x00, 0x00, 0x11] (by decide) (by decide)

/-- **C8** (confirmed).  Encoding any message always succeeds (`Ok`), and
the produced buffer is non-empty with the variant's identifier byte first. -/
theorem to_bytes_always_ok_head_packet_id (m : Packet) :
    ∃ bs, Packet.to_bytes m = .ok bs ∧ bs ≠ [] ∧ bs.head? = some m.packet_id := by
  cases m <;>
    simp [Packet.to_bytes, Packet.packet_id, put_u8,
      KEEP_ALIVE_PACKET_ID, LOGIN_REQUEST_PACKET_ID, HANDSHAKE_PACKET_ID,
      CHAT_MESSAGE_PACKET_ID, TIME_UPDATE_PACKET_ID, ENTITY_EQUIPMENT_PACKET_ID,
      SPAWN_POSITION_PACKET_ID, PLAYER_POSITION_AND_LOOK_PACKET_ID,
      SERVER_LIST_PING_PACKET_ID, DISCONNECT_KICK_PACKET_ID]

/-- **C9** (confirmed).  Encoding `DisconnectKick { reason := "EZIO§4§4" }`
produces exactly the 19-byte sequence from the repository's
`encode_disconnect_server_status_packet` test: identifier `FF`, length
prefix `00 08`, then one 2-byte big-endian UTF-16 code unit per character. -/
theorem encode_disconnect_kick_server_status :
    Packet.to_bytes (.DisconnectKick { reason := "EZIO§4§4" }) =
      .ok [0xFF, 0x00, 0x08, 0x00, 0x45, 0x00, 0x5A, 0x00, 0x49, 0x00, 0x4F,
           0x00, 0xA7, 0x00, 0x34, 0x00, 0xA7, 0x00, 0x34] := by
  decide

/-- **C2** (code bug).  Round-tripping fails on the message of the
repository's own `encode_login_request_packet` test:
`LoginRequest { ..., unused_0 := 0, max_players := 5 }` encodes to the
28-byte buffer that test asserts, but decoding that buffer yields
`max_players = 0` — the decoder never consumes the encoder's `unused_0`
byte, so it reads `max_players` from the position the encoder used for
`unused_0` and leaves the real `max_players` byte (`0x05`) unconsumed. -/
theorem login_roundtrip_drops_max_players :
    Packet.to_bytes
        (.LoginRequest { id := 1234, username := "", level_type := "FLAT",
                         server_mode := 1, dimension := 0, difficulty := 0,
                         unused_0 := 0, max_players := 5 }) =
      .ok [0x01, 0x00, 0x00, 0x04, 0xD2, 0x00, 0x00, 0x00, 0x04, 0x00, 0x46,
           0x00, 0x4C, 0x00, 0x41, 0x00, 0x54, 0x00, 0x00, 0x00, 0x01, 0x00,
           0x00, 0x00, 0x00, 0x00, 0x00, 0x05] ∧
    Packet.from_bytes
        [0x01, 0x00, 0x00, 0x04, 0xD2, 0x00, 0x00, 0x00, 0x04, 0x00, 0x46,
         0x00, 0x4C, 0x00, 0x41, 0x00, 0x54, 0x00, 0x00, 0x00, 0x01, 0x00,
         0x00, 0x00, 0x00, 0x00, 0x00, 0x05] =
      .ok (.LoginRequest { id := 1234, username := "", level_type := "FLAT",
                           server_mode := 1, dimension := 0, difficulty := 0,
                           unused_0 := 0, max_players := 0 }) ∧
    Packet.from_bytes
        [0x01, 0x00, 0x00, 0x04, 0xD2, 0x00, 0x00, 0x00, 0x04, 0x00, 0x46,
         0x00, 0x4C, 0x00, 0x41, 0x00, 0x54, 0x00, 0x00, 0x00, 0x01, 0x00,
         0x00, 0x00, 0x00, 0x00, 0x00, 0x05] ≠
      .ok (.LoginRequest { id := 1234, username := "", level_type := "FLAT",
                           server_mode := 1, dimension := 0, difficulty := 0,
                           unused_0 := 0, max_players := 5 }) := by
  refine ⟨by decide, by decide, by decide⟩

/-- **C3** (code bug).  The string round-trip fails on the non-BMP string
`"𝄞"` (U+1D11E): `put_string` writes the scalar-value count `1` as the
length prefix but emits the two code units of the surrogate pair, so
`read_string` reads back only the lone high surrogate `0xD834` and
`String::from_utf16` rejects it as invalid UTF-16. -/
theorem string_roundtrip_fails_on_surrogate_pair :
    read_string (put_string "𝄞") = .error (.invalidData "Invalid UTF-16 data") := by
  decide

/-- **C4** (code bug).  The `LoginRequest` decoder does not consume a wire
byte for the reserved field.  On a 22-byte buffer whose payload ends with
difficulty `0x02`, reserved byte `0x07`, and max-players byte `0x09`, the
decoder returns `difficulty = 2`, `unused_0 = 0` (assigned, not read), and
`max_players = 7` — the value of the *reserved* byte — leaving the real
max-players byte `0x09` unconsumed.  A decoder consuming all eight fields
would return `max_players = 9`. -/
theorem login_decoder_skips_reserved_byte :
    Packet.from_bytes
        [0x01, 0x00, 0x00, 0x00, 0x1D, 0x00, 0x01, 0x00, 0x65, 0x00, 0x00,
         0x00, 0x00, 0x00, 0x00, 0x00, 0x00, 0x00, 0x00, 0x02, 0x07, 0x09] =
      .ok (.LoginRequest { id := 29, username := "e", level_type := "",
                           server_mode := 0, dimension := 0, difficulty := 2,
                           unused_0 := 0, max_players := 7 }) := by
  decide

/-- **C5** (code bug).  For `"𝄞"` (one character, two UTF-16 code units)
the 16-bit length prefix written by `put_string` is `0x0001` — the count of
Unicode scalar values produced by `s.chars().count()` — while the UTF-16
code-unit count of the string is `2`.  (The total length `2 + 2 * 2 = 6`
bytes does match the claim's formula, because the encoder emits every code
unit regardless of the prefix.) -/
theorem put_string_prefix_counts_chars_not_units :
    put_string "𝄞" = [0x00, 0x01, 0xD8, 0x34, 0xDD, 0x1E] ∧
      (encode_utf16 "𝄞").length = 2 := by
  refine ⟨by decide, by decide⟩

end Misery
